import Mathlib

/-!
# Verification of the page-analytics agent (`counter.js`)

A shallow embedding of the tracking agent: its global mutable state is the
`State` structure, the browser environment read by the agent (location,
clocks, visibility, storage, the host-page hook) is the `Env` structure,
and each source function becomes a Lean function from `Env`/`State` to a
new `State` together with the list of events it hands to `fetch`.

Time is modelled explicitly: `Env.now` is `Date.now()` (an `Int`, since
subtraction of wall-clock readings is signed in JavaScript), and
`Env.perfNow` is `performance.now()` (a `Nat`, monotone from page load).
-/

set_option autoImplicit false

namespace Counter

/-- Flat custom key-value properties (`data-usd-*` attributes / hook payload). -/
abbrev Props := List (String × String)

/-- Immutable configuration built once by `initConfig`. -/
structure Config where
  endpoint : String
  siteId : Int
  uniqueId : Option String
  logging : Bool
  customProps : Option Props
  beforeSend : Option String
deriving DecidableEq

/-- Behaviour of the host-global payload-transform hook `window[config.beforeSend]`
at the moment `sendRequest` resolves it: it is not a function (resolution
fails), it is a function that throws when invoked, or it is a function that
returns a transformed properties object. -/
inductive HookBehavior where
  | notFunction
  | throws
  | returns (f : Props → Props)

/-- The browser environment as read by the agent at one instant. -/
structure Env where
  pathname : String
  href : String
  hrefFails : Bool
  hostname : String
  referrer : Option String
  scrollY : Nat
  innerHeight : Nat
  bodyScrollHeight : Nat
  docElemScrollHeight : Nat
  now : Int
  perfNow : Nat
  visible : Bool
  webdriver : Bool
  cypress : Bool
  hasFetch : Bool
  /-- `localStorage.getItem("analytics_ignore")`: `none` means the read threw;
  `some v` means it returned `v` (`v = none` is JavaScript `null`). -/
  analyticsIgnore : Option (Option String)
  hook : HookBehavior

/-- The agent's module-level mutable state (the globals of `counter.js`,
after `init()` has populated `config`). -/
structure State where
  currentPath : String
  pageviewSent : Bool
  documentHeight : Nat
  maxScrollDepth : Nat
  engagementStart : Option Int
  accumulatedEngagement : Int
  engagementTimerActive : Bool
  engagementSent : Bool
  pageLoadTime : Nat
deriving DecidableEq

/-- The globals as initialised at script load, with `pageLoadTime = performance.now()`. -/
def initialState (t0 : Nat) : State :=
  { currentPath := ""
    pageviewSent := false
    documentHeight := 0
    maxScrollDepth := 0
    engagementStart := none
    accumulatedEngagement := 0
    engagementTimerActive := false
    engagementSent := false
    pageLoadTime := t0 }

/-- An outbound JSON event as handed to `fetch` (fields absent from a given
event are `none`). -/
structure Event where
  n : String
  u : String
  hu : Option String
  i : Int
  r : Option String
  p : Option Props
  sd : Option Nat
  e : Option Int
  h : Option Nat
  tt : Option Nat
deriving DecidableEq

/-- `getCurrentUrl`: `location.href` guarded by try/catch (failure gives `""`). -/
def getCurrentUrl (env : Env) : String :=
  if env.hrefFails then "" else env.href

/-- `getDocumentHeight`: max of body and documentElement scroll heights. -/
def getDocumentHeight (env : Env) : Nat :=
  max env.bodyScrollHeight env.docElemScrollHeight

/-- `getCurrentScrollDepth`: `min(scrollY + innerHeight, documentHeight)`,
reading the global `documentHeight`. -/
def getCurrentScrollDepth (env : Env) (s : State) : Nat :=
  min (env.scrollY + env.innerHeight) s.documentHeight

/-- `getScrollPercentage`: `min(round(maxScrollDepth / documentHeight * 100), 100)`,
0 when `documentHeight` is 0.  `Math.round` on the exact nonnegative rational
`m * 100 / d` is `⌊(200 * m + d) / (2 * d)⌋`. -/
def getScrollPercentage (s : State) : Nat :=
  if s.documentHeight = 0 then 0
  else min ((200 * s.maxScrollDepth + s.documentHeight) / (2 * s.documentHeight)) 100

/-- `resetScrollTracking`: recompute `documentHeight`, then take the currently
visible extent (computed against the fresh height) as the scroll high-water mark. -/
def resetScrollTracking (env : Env) (s : State) : State :=
  let dh := getDocumentHeight env
  { s with documentHeight := dh
           maxScrollDepth := min (env.scrollY + env.innerHeight) dh }

/-- One coalesced scroll sample (the body of the `requestAnimationFrame` callback):
raise the high-water mark if the current depth exceeds it. -/
def onScrollSample (env : Env) (s : State) : State :=
  let depth := getCurrentScrollDepth env s
  if s.maxScrollDepth < depth then { s with maxScrollDepth := depth } else s

/-- `startEngagement`: if the timer is not active, capture `Date.now()` and
activate; otherwise a no-op. -/
def startEngagement (now : Int) (s : State) : State :=
  if s.engagementTimerActive then s
  else { s with engagementStart := some now, engagementTimerActive := true }

/-- `pauseEngagement`: if active, add `Date.now() − engagementStart` to the
accumulator and deactivate; otherwise a no-op.  (JavaScript coerces a `null`
`engagementStart` to 0, hence `getD 0`; note the source does **not** clear
`engagementStart` here.) -/
def pauseEngagement (now : Int) (s : State) : State :=
  if s.engagementTimerActive then
    { s with accumulatedEngagement :=
               s.accumulatedEngagement + (now - s.engagementStart.getD 0)
             engagementTimerActive := false }
  else s

/-- `getEngagementTime`: accumulated time plus the live delta when active. -/
def getEngagementTime (now : Int) (s : State) : Int :=
  s.accumulatedEngagement +
    (if s.engagementTimerActive then now - s.engagementStart.getD 0 else 0)

/-- `resetEngagementTracking`: zero the accumulator, clear the start stamp,
deactivate. -/
def resetEngagementTracking (s : State) : State :=
  { s with engagementStart := none
           accumulatedEngagement := 0
           engagementTimerActive := false }

/-- `handleVisibilityChange`: visible starts the timer, hidden pauses it. -/
def handleVisibilityChange (env : Env) (s : State) : State :=
  if env.visible then startEngagement env.now s else pauseEngagement env.now s

/-- The hostname test `/^localhost$|^127(\.\d+){0,2}\.\d+$/`: after the
literal `127`, scan `n` groups of `.` followed by one or more digits,
accepting at the end of input when the final group is nonempty and
`1 ≤ n ≤ 3`.  `inDigits` records whether the current group has seen a digit. -/
def scan127 : List Char → Nat → Bool → Bool
  | [], n, inDigits => inDigits && decide (1 ≤ n) && decide (n ≤ 3)
  | c :: rest, n, inDigits =>
    if c = '.' then
      if inDigits || n = 0 then scan127 rest (n + 1) false else false
    else if c.isDigit then
      if n = 0 then false else scan127 rest n true
    else false

/-- The loop-back hostname pattern of `shouldTrack`. -/
def isLoopbackHostname (h : String) : Bool :=
  h = "localhost" ||
    (match h.toList with
     | '1' :: '2' :: '7' :: rest => scan127 rest 0 false
     | _ => false)

/-- `shouldTrack`: false on loop-back hostnames, automation flags, or the
persisted opt-out value `"true"`; a throwing storage read is swallowed and
tracking stays allowed. -/
def shouldTrack (env : Env) : Bool :=
  if isLoopbackHostname env.hostname then false
  else if env.webdriver || env.cypress then false
  else match env.analyticsIgnore with
    | some (some v) => !(v = "true")
    | _ => true

/-- The `beforeSend` block of `sendRequest`: resolve `window[config.beforeSend]`;
if it is a function, ensure `data.p` exists (assigning `{}` when absent) and
replace it with the hook's return value; a throw during invocation is caught,
leaving `data.p` as it stood at the throw. -/
def applyHook (env : Env) (cfg : Config) (data : Event) : Event :=
  match cfg.beforeSend with
  | none => data
  | some _ =>
    match env.hook with
    | HookBehavior.notFunction => data
    | HookBehavior.throws => { data with p := some (data.p.getD []) }
    | HookBehavior.returns f => { data with p := some (f (data.p.getD [])) }

/-- `sendRequest`: return without sending when `fetch` is unavailable or the
track gate denies; otherwise apply the hook and transmit exactly the one
event.  (`config` is non-null after `init`, so its guard is vacuous here.)
The result is the list of payloads handed to `fetch`. -/
def sendRequest (env : Env) (cfg : Config) (data : Event) : List Event :=
  if !env.hasFetch then []
  else if !shouldTrack env then []
  else [applyHook env cfg data]

/-- Event-specific extra fields merged over the base payload by `trackEvent`. -/
structure Extra where
  sd : Option Nat := none
  e : Option Int := none
  h : Option Nat := none
  tt : Option Nat := none
deriving DecidableEq

/-- The merged object `{n: name, ...basePayload(), ...props}` built by
`trackEvent` before it reaches `sendRequest`. -/
def baseEvent (env : Env) (cfg : Config) (name : String) (extra : Extra) : Event :=
  { n := name
    u := getCurrentUrl env
    hu := cfg.uniqueId
    i := cfg.siteId
    r := env.referrer
    p := cfg.customProps
    sd := extra.sd
    e := extra.e
    h := extra.h
    tt := extra.tt }

/-- `trackEvent`: build `{n, ...basePayload(), ...props}` and hand it to
`sendRequest`. -/
def trackEvent (env : Env) (cfg : Config) (name : String) (extra : Extra) :
    List Event :=
  sendRequest env cfg (baseEvent env cfg name extra)

/-- `trackPageview`: reset scroll and engagement trackers, start the
engagement timer, emit the `pageview` event, and mark the new page view open
(`pageviewSent := true`, `engagementSent := false`). -/
def trackPageview (cfg : Config) (env : Env) (s : State) : State × List Event :=
  let s1 := resetScrollTracking env s
  let s2 := resetEngagementTracking s1
  let s3 := startEngagement env.now s2
  let evs := trackEvent env cfg "pageview" {}
  ({ s3 with pageviewSent := true, engagementSent := false }, evs)

/-- `trackEngagement` (the spec's `closeCurrentPageView`): no-op unless a
pageview was sent and no engagement was sent yet; suppress as noise when the
engaged time is under 2000 ms and no scroll happened; otherwise pause the
timer, emit the `engagement` event with scroll percentage, engaged time,
`h = 1` and total time since load, then reset the accumulator and mark the
engagement sent. -/
def trackEngagement (cfg : Config) (env : Env) (s : State) : State × List Event :=
  if !s.pageviewSent || s.engagementSent then (s, [])
  else
    let time := getEngagementTime env.now s
    if time < 2000 ∧ s.maxScrollDepth = 0 then (s, [])
    else
      let s1 := pauseEngagement env.now s
      let evs := trackEvent env cfg "engagement"
        { sd := some (getScrollPercentage s1)
          e := some time
          h := some 1
          tt := some (env.perfNow - s1.pageLoadTime) }
      let s2 := resetEngagementTracking s1
      ({ s2 with engagementSent := true }, evs)

/-- `handleRouteChange`: compare `location.pathname` with `currentPath`; on a
real change, close the outgoing page view (when one is open, i.e.
`currentPath` is non-empty), then record the new path and open the new page
view. -/
def handleRouteChange (cfg : Config) (env : Env) (s : State) : State × List Event :=
  if env.pathname = s.currentPath then (s, [])
  else
    let p1 := if s.currentPath ≠ "" then trackEngagement cfg env s else (s, [])
    let s2 := { p1.1 with currentPath := env.pathname, pageviewSent := false }
    let p2 := trackPageview cfg env s2
    (p2.1, p1.2 ++ p2.2)

/-- The wrapped `history.pushState` / `history.replaceState`: delegate to the
original method first (which moves `location` to the destination, modelled by
`navigate`), then run `handleRouteChange` against the post-navigation
environment. -/
def wrappedHistoryMethod (navigate : Env → Env) (cfg : Config) (env : Env)
    (s : State) : State × List Event :=
  handleRouteChange cfg (navigate env) s

/-- The lifecycle signals the orchestrator reacts to: navigation signals
(`popstate`, `pushstate`, `replacestate`, cache restore), visibility changes,
window focus/blur, unload-type signals (`beforeunload`/`pagehide`), and a
coalesced scroll sample. -/
inductive Signal where
  | routeChange
  | visibilitychange
  | focus
  | blur
  | unload
  | scroll
deriving DecidableEq

/-- Dispatch of one lifecycle signal, as wired in `setupNavigation`/`init`. -/
def step (cfg : Config) (sig : Signal) (env : Env) (s : State) :
    State × List Event :=
  match sig with
  | Signal.routeChange => handleRouteChange cfg env s
  | Signal.visibilitychange => (handleVisibilityChange env s, [])
  | Signal.focus => (startEngagement env.now s, [])
  | Signal.blur => (pauseEngagement env.now s, [])
  | Signal.unload => trackEngagement cfg env s
  | Signal.scroll => (onScrollSample env s, [])

/-- Run a sequence of lifecycle signals, concatenating the emitted events. -/
def stepRun (cfg : Config) : State → List (Signal × Env) → State × List Event
  | s, [] => (s, [])
  | s, (sig, env) :: rest =>
    let p := step cfg sig env s
    let q := stepRun cfg p.1 rest
    (q.1, p.2 ++ q.2)

/-- Number of events named `nm` in an emission trace. -/
def countName (nm : String) (evs : List Event) : Nat :=
  List.countP (fun ev => ev.n == nm) evs

/-- How many `engagement` events the current page view may still emit:
one before `engagementSent` is set, none afterwards. -/
def engBudget (s : State) : Nat :=
  if s.engagementSent then 0 else 1

/-- An externally driven call into the Engagement Accumulator, stamped with
the `Date.now()` reading it observes. -/
inductive EngOp where
  | start (t : Int)
  | pause (t : Int)
deriving DecidableEq

/-- The timestamp an accumulator call observes. -/
def opTime : EngOp → Int
  | EngOp.start t => t
  | EngOp.pause t => t

/-- Apply one accumulator call. -/
def applyEngOp : EngOp → State → State
  | EngOp.start t, s => startEngagement t s
  | EngOp.pause t, s => pauseEngagement t s

/-- Apply a sequence of accumulator calls in order. -/
def applyEngOps : List EngOp → State → State
  | [], s => s
  | op :: rest, s => applyEngOps rest (applyEngOp op s)

/-- The bounded height-repolling timer started by the `load` listener:
`let attempts = 10; const interval = setInterval(..., 300)`. -/
structure RepollTimer where
  attempts : Int
  cancelled : Bool
  periodMs : Nat
deriving DecidableEq

/-- The timer as armed by the `load` listener. -/
def repollStart : RepollTimer :=
  { attempts := 10, cancelled := false, periodMs := 300 }

/-- One `setInterval` tick: when not cancelled, re-read the document height
into the global and run `if (--attempts <= 0) clearInterval(interval)`. -/
def repollTick (env : Env) (t : RepollTimer) (s : State) : RepollTimer × State :=
  if t.cancelled then (t, s)
  else
    ({ t with attempts := t.attempts - 1
              cancelled := decide (t.attempts - 1 ≤ 0) },
     { s with documentHeight := getDocumentHeight env })

/-- Run the timer over a sequence of tick instants, counting how many ticks
actually re-polled the height. -/
def repollRun : List Env → RepollTimer → State → RepollTimer × State × Nat
  | [], t, s => (t, s, 0)
  | env :: rest, t, s =>
    let p := repollTick env t s
    let q := repollRun rest p.1 p.2
    (q.1, q.2.1, (if t.cancelled then 0 else 1) + q.2.2)

/-! ### Concrete scenario data used by the witnesses -/

/-- A benign desktop browsing environment on path `/a`. -/
def witEnv : Env :=
  { pathname := "/a"
    href := "https://example.com/a"
    hrefFails := false
    hostname := "example.com"
    referrer := none
    scrollY := 0
    innerHeight := 600
    bodyScrollHeight := 1200
    docElemScrollHeight := 1100
    now := 5000
    perfNow := 6000
    visible := true
    webdriver := false
    cypress := false
    hasFetch := true
    analyticsIgnore := some none
    hook := HookBehavior.notFunction }

/-- A plain configuration without custom properties or a hook. -/
def witCfg : Config :=
  { endpoint := "https://example.com/api/event"
    siteId := 7
    uniqueId := some "u1"
    logging := true
    customProps := none
    beforeSend := some "enrich" }

/-- An open page view on `/a`, visible and active since `now = 1000`. -/
def witState : State :=
  { currentPath := "/a"
    pageviewSent := true
    documentHeight := 1200
    maxScrollDepth := 600
    engagementStart := some 1000
    accumulatedEngagement := 0
    engagementTimerActive := true
    engagementSent := false
    pageLoadTime := 0 }

/-- The pageview payload of the witness scenario, with no custom properties. -/
def witData : Event :=
  { n := "pageview"
    u := "https://example.com/a"
    hu := some "u1"
    i := 7
    r := none
    p := none
    sd := none
    e := none
    h := none
    tt := none }

/-- The location mutation performed by the original history method in the
witness scenario: a push to `/b`. -/
def witNav (env : Env) : Env :=
  { env with pathname := "/b", href := "https://example.com/b" }


/-! ### Engagement accumulator lemmas -/

theorem getEngagementTime_mono_read {t1 t2 : Int} (s : State) (h : t1 ≤ t2) :
    getEngagementTime t1 s ≤ getEngagementTime t2 s := by
  unfold getEngagementTime
  split <;> omega

theorem getEngagementTime_step {t1 : Int} (op : EngOp) (s : State)
    (h : t1 ≤ opTime op) :
    getEngagementTime t1 s ≤ getEngagementTime (opTime op) (applyEngOp op s) := by
  cases op with
  | start t =>
    simp only [applyEngOp, opTime] at *
    unfold startEngagement getEngagementTime
    by_cases hA : s.engagementTimerActive
    · simp [hA]
      omega
    · simp [hA]
  | pause t =>
    simp only [applyEngOp, opTime] at *
    unfold pauseEngagement getEngagementTime
    by_cases hA : s.engagementTimerActive
    · simp [hA]
      omega
    · simp [hA]

theorem getEngagementTime_run {t1 t2 : Int} (ops : List EngOp) (s : State)
    (hchain : List.Chain (· ≤ ·) t1 (ops.map opTime ++ [t2])) :
    getEngagementTime t1 s ≤ getEngagementTime t2 (applyEngOps ops s) := by
  induction ops generalizing s t1 with
  | nil =>
    rw [List.map_nil, List.nil_append, List.chain_cons] at hchain
    exact getEngagementTime_mono_read s hchain.1
  | cons op rest ih =>
    rw [List.map_cons, List.cons_append, List.chain_cons] at hchain
    exact le_trans (getEngagementTime_step op s hchain.1)
      (ih (applyEngOp op s) hchain.2)

theorem startEngagement_idem (u v : Int) (s : State) :
    startEngagement v (startEngagement u s) = startEngagement u s := by
  unfold startEngagement
  by_cases hA : s.engagementTimerActive <;> simp [hA]

/-- Claim C4: over any sequence of `startEngagement`/`pauseEngagement` calls
whose observed `Date.now()` readings are monotone, `getEngagementTime` never
decreases from one read to a later read; and a second `startEngagement`
without an intervening pause leaves `getEngagementTime` exactly as after the
single call (start is idempotent while active). -/
theorem engagementTime_monotone_and_start_idempotent
    (s : State) (ops : List EngOp) (t1 t2 : Int)
    (hchain : List.Chain (· ≤ ·) t1 (ops.map opTime ++ [t2])) :
    getEngagementTime t1 s ≤ getEngagementTime t2 (applyEngOps ops s) ∧
    ∀ u v w : Int,
      getEngagementTime w (startEngagement v (startEngagement u s)) =
        getEngagementTime w (startEngagement u s) := by
  refine ⟨getEngagementTime_run ops s hchain, ?_⟩
  intro u v w
  rw [startEngagement_idem]

/-- Witness for C4 at a concrete run: start at 1, pause at 3, start at 5,
read at 9, from the initial state read at 0. -/
theorem engagementTime_monotone_witness :
    getEngagementTime 0 (initialState 0) ≤
      getEngagementTime 9
        (applyEngOps [EngOp.start 1, EngOp.pause 3, EngOp.start 5] (initialState 0)) ∧
    getEngagementTime 9
        (startEngagement 7 (startEngagement 5 (initialState 0))) =
      getEngagementTime 9 (startEngagement 5 (initialState 0)) := by
  have h := engagementTime_monotone_and_start_idempotent (initialState 0)
    [EngOp.start 1, EngOp.pause 3, EngOp.start 5] 0 9
    (by norm_num [List.chain_cons, opTime])
  exact ⟨h.1, h.2 5 7 9⟩

/-- Counterexample to C5: starting at `now = 5` and pausing at `now = 10`
leaves the timer inactive but `engagementStart` still `some 5` — the source's
`pauseEngagement` never clears `engagementStart`, so `isActive ⇔ activeSince
set` fails after a pause. -/
theorem pause_leaves_engagementStart_set :
    ¬(((pauseEngagement 10 (startEngagement 5 (initialState 0))).engagementTimerActive
          = true) ↔
      (pauseEngagement 10 (startEngagement 5 (initialState 0))).engagementStart
          ≠ none) := by
  decide

/-- Claim C5 (amended): after every accumulator operation the forward
direction of the invariant holds — active implies `engagementStart` is set —
and `pauseEngagement` from the active state adds `now − engagementStart` to
the accumulator and deactivates the timer, but leaves `engagementStart`
unchanged (only `resetEngagementTracking` clears it). -/
theorem engagement_active_implies_start_set
    (s : State) (t : Int)
    (hinv : s.engagementTimerActive = true → s.engagementStart ≠ none) :
    (∀ op : EngOp, (applyEngOp op s).engagementTimerActive = true →
        (applyEngOp op s).engagementStart ≠ none) ∧
    ((resetEngagementTracking s).engagementTimerActive = true →
        (resetEngagementTracking s).engagementStart ≠ none) ∧
    (s.engagementTimerActive = true →
      s.engagementStart ≠ none ∧
      (pauseEngagement t s).accumulatedEngagement
          = s.accumulatedEngagement + (t - s.engagementStart.getD 0) ∧
      (pauseEngagement t s).engagementTimerActive = false ∧
      (pauseEngagement t s).engagementStart = s.engagementStart) := by
  refine ⟨?_, ?_, ?_⟩
  · intro op
    cases op with
    | start u =>
      simp only [applyEngOp]
      unfold startEngagement
      by_cases hA : s.engagementTimerActive <;> simp [hA, hinv]
    | pause u =>
      simp only [applyEngOp]
      unfold pauseEngagement
      by_cases hA : s.engagementTimerActive <;> simp [hA, hinv]
  · simp [resetEngagementTracking]
  · intro hA
    refine ⟨hinv hA, ?_, ?_, ?_⟩ <;> simp [pauseEngagement, hA]

/-- Witness for C5 (amended) at the state reached by starting at `now = 5`. -/
theorem engagement_active_implies_start_set_witness :
    (startEngagement 5 (initialState 0)).engagementStart ≠ none ∧
    (pauseEngagement 12 (startEngagement 5 (initialState 0))).accumulatedEngagement
        = (startEngagement 5 (initialState 0)).accumulatedEngagement +
            (12 - (startEngagement 5 (initialState 0)).engagementStart.getD 0) ∧
    (pauseEngagement 12 (startEngagement 5 (initialState 0))).engagementTimerActive
        = false ∧
    (pauseEngagement 12 (startEngagement 5 (initialState 0))).engagementStart
        = (startEngagement 5 (initialState 0)).engagementStart :=
  (engagement_active_implies_start_set (startEngagement 5 (initialState 0)) 12
    (by decide)).2.2 (by decide)

/-! ### Dispatcher lemmas -/

theorem applyHook_fields (env : Env) (cfg : Config) (d : Event) :
    (applyHook env cfg d).n = d.n ∧ (applyHook env cfg d).u = d.u ∧
    (applyHook env cfg d).sd = d.sd ∧ (applyHook env cfg d).e = d.e ∧
    (applyHook env cfg d).h = d.h ∧ (applyHook env cfg d).tt = d.tt := by
  cases hb : cfg.beforeSend with
  | none => simp [applyHook, hb]
  | some nm => cases hh : env.hook <;> simp [applyHook, hb, hh]

theorem trackEvent_mem (env : Env) (cfg : Config) (name : String) (extra : Extra) :
    ∀ ev ∈ trackEvent env cfg name extra,
      ev.n = name ∧ ev.u = getCurrentUrl env ∧ ev.sd = extra.sd ∧
      ev.e = extra.e ∧ ev.h = extra.h ∧ ev.tt = extra.tt := by
  intro ev hev
  unfold trackEvent sendRequest at hev
  split at hev
  · simp at hev
  · split at hev
    · simp at hev
    · rw [List.mem_singleton] at hev
      subst hev
      exact applyHook_fields env cfg (baseEvent env cfg name extra)

theorem trackEvent_length_le (env : Env) (cfg : Config) (name : String)
    (extra : Extra) : (trackEvent env cfg name extra).length ≤ 1 := by
  unfold trackEvent sendRequest
  split
  · simp
  · split <;> simp

theorem countName_eq_zero {nm : String} {evs : List Event}
    (h : ∀ ev ∈ evs, ev.n ≠ nm) : countName nm evs = 0 := by
  unfold countName
  rw [List.countP_eq_zero]
  intro a ha
  simp [h a ha]

theorem countName_le_length (nm : String) (evs : List Event) :
    countName nm evs ≤ evs.length :=
  List.countP_le_length _

theorem countName_append (nm : String) (l1 l2 : List Event) :
    countName nm (l1 ++ l2) = countName nm l1 + countName nm l2 :=
  List.countP_append _ _ _

/-! ### Field-preservation lemmas for the tracker operations -/

@[simp] theorem startEngagement_currentPath (t : Int) (s : State) :
    (startEngagement t s).currentPath = s.currentPath := by
  unfold startEngagement; split <;> rfl

@[simp] theorem startEngagement_pageviewSent (t : Int) (s : State) :
    (startEngagement t s).pageviewSent = s.pageviewSent := by
  unfold startEngagement; split <;> rfl

@[simp] theorem startEngagement_engagementSent (t : Int) (s : State) :
    (startEngagement t s).engagementSent = s.engagementSent := by
  unfold startEngagement; split <;> rfl

@[simp] theorem startEngagement_documentHeight (t : Int) (s : State) :
    (startEngagement t s).documentHeight = s.documentHeight := by
  unfold startEngagement; split <;> rfl

@[simp] theorem startEngagement_maxScrollDepth (t : Int) (s : State) :
    (startEngagement t s).maxScrollDepth = s.maxScrollDepth := by
  unfold startEngagement; split <;> rfl

@[simp] theorem startEngagement_pageLoadTime (t : Int) (s : State) :
    (startEngagement t s).pageLoadTime = s.pageLoadTime := by
  unfold startEngagement; split <;> rfl

@[simp] theorem pauseEngagement_currentPath (t : Int) (s : State) :
    (pauseEngagement t s).currentPath = s.currentPath := by
  unfold pauseEngagement; split <;> rfl

@[simp] theorem pauseEngagement_pageviewSent (t : Int) (s : State) :
    (pauseEngagement t s).pageviewSent = s.pageviewSent := by
  unfold pauseEngagement; split <;> rfl

@[simp] theorem pauseEngagement_engagementSent (t : Int) (s : State) :
    (pauseEngagement t s).engagementSent = s.engagementSent := by
  unfold pauseEngagement; split <;> rfl

@[simp] theorem pauseEngagement_documentHeight (t : Int) (s : State) :
    (pauseEngagement t s).documentHeight = s.documentHeight := by
  unfold pauseEngagement; split <;> rfl

@[simp] theorem pauseEngagement_maxScrollDepth (t : Int) (s : State) :
    (pauseEngagement t s).maxScrollDepth = s.maxScrollDepth := by
  unfold pauseEngagement; split <;> rfl

@[simp] theorem pauseEngagement_pageLoadTime (t : Int) (s : State) :
    (pauseEngagement t s).pageLoadTime = s.pageLoadTime := by
  unfold pauseEngagement; split <;> rfl

@[simp] theorem resetEngagementTracking_currentPath (s : State) :
    (resetEngagementTracking s).currentPath = s.currentPath := rfl

@[simp] theorem resetEngagementTracking_pageviewSent (s : State) :
    (resetEngagementTracking s).pageviewSent = s.pageviewSent := rfl

@[simp] theorem resetEngagementTracking_engagementSent (s : State) :
    (resetEngagementTracking s).engagementSent = s.engagementSent := rfl

@[simp] theorem resetEngagementTracking_documentHeight (s : State) :
    (resetEngagementTracking s).documentHeight = s.documentHeight := rfl

@[simp] theorem resetEngagementTracking_maxScrollDepth (s : State) :
    (resetEngagementTracking s).maxScrollDepth = s.maxScrollDepth := rfl

@[simp] theorem resetEngagementTracking_pageLoadTime (s : State) :
    (resetEngagementTracking s).pageLoadTime = s.pageLoadTime := rfl

@[simp] theorem resetScrollTracking_currentPath (env : Env) (s : State) :
    (resetScrollTracking env s).currentPath = s.currentPath := rfl

@[simp] theorem resetScrollTracking_pageviewSent (env : Env) (s : State) :
    (resetScrollTracking env s).pageviewSent = s.pageviewSent := rfl

@[simp] theorem resetScrollTracking_engagementSent (env : Env) (s : State) :
    (resetScrollTracking env s).engagementSent = s.engagementSent := rfl

@[simp] theorem resetScrollTracking_pageLoadTime (env : Env) (s : State) :
    (resetScrollTracking env s).pageLoadTime = s.pageLoadTime := rfl

@[simp] theorem onScrollSample_currentPath (env : Env) (s : State) :
    (onScrollSample env s).currentPath = s.currentPath := by
  unfold onScrollSample
  dsimp only
  split <;> rfl

@[simp] theorem onScrollSample_pageviewSent (env : Env) (s : State) :
    (onScrollSample env s).pageviewSent = s.pageviewSent := by
  unfold onScrollSample
  dsimp only
  split <;> rfl

@[simp] theorem onScrollSample_engagementSent (env : Env) (s : State) :
    (onScrollSample env s).engagementSent = s.engagementSent := by
  unfold onScrollSample
  dsimp only
  split <;> rfl

@[simp] theorem handleVisibilityChange_currentPath (env : Env) (s : State) :
    (handleVisibilityChange env s).currentPath = s.currentPath := by
  unfold handleVisibilityChange; split <;> simp

@[simp] theorem handleVisibilityChange_pageviewSent (env : Env) (s : State) :
    (handleVisibilityChange env s).pageviewSent = s.pageviewSent := by
  unfold handleVisibilityChange; split <;> simp

@[simp] theorem handleVisibilityChange_engagementSent (env : Env) (s : State) :
    (handleVisibilityChange env s).engagementSent = s.engagementSent := by
  unfold handleVisibilityChange; split <;> simp

theorem getScrollPercentage_pauseEngagement (t : Int) (s : State) :
    getScrollPercentage (pauseEngagement t s) = getScrollPercentage s := by
  unfold getScrollPercentage
  simp

/-! ### Behaviour of `trackEngagement` and `trackPageview` -/

theorem trackEngagement_spec (cfg : Config) (env : Env) (s : State) :
    (trackEngagement cfg env s).1.currentPath = s.currentPath ∧
    (trackEngagement cfg env s).1.pageviewSent = s.pageviewSent ∧
    (∀ ev ∈ (trackEngagement cfg env s).2, ev.n = "engagement") ∧
    countName "engagement" (trackEngagement cfg env s).2 +
        engBudget (trackEngagement cfg env s).1 ≤ engBudget s ∧
    countName "pageview" (trackEngagement cfg env s).2 = 0 := by
  unfold trackEngagement
  dsimp only
  split
  · simp [countName]
  · rename_i hguard
    have hes : s.engagementSent = false := by
      revert hguard; cases s.engagementSent <;> simp
    split
    · simp [countName]
    · refine ⟨by simp, by simp, ?_, ?_, ?_⟩
      · intro ev hev
        exact (trackEvent_mem env cfg "engagement" _ ev hev).1
      · have h1 : countName "engagement" (trackEvent env cfg "engagement"
            { sd := some (getScrollPercentage (pauseEngagement env.now s))
              e := some (getEngagementTime env.now s)
              h := some 1
              tt := some (env.perfNow - (pauseEngagement env.now s).pageLoadTime) }) ≤ 1 :=
          le_trans (countName_le_length _ _) (trackEvent_length_le _ _ _ _)
        simpa [engBudget, hes] using h1
      · exact countName_eq_zero (fun ev hev => by
          simp [(trackEvent_mem env cfg "engagement" _ ev hev).1])

theorem trackEngagement_events_u (cfg : Config) (env : Env) (s : State) :
    ∀ ev ∈ (trackEngagement cfg env s).2, ev.u = getCurrentUrl env := by
  unfold trackEngagement
  dsimp only
  split
  · simp
  · split
    · simp
    · intro ev hev
      exact (trackEvent_mem env cfg "engagement" _ ev hev).2.1

theorem trackPageview_spec (cfg : Config) (env : Env) (s : State) :
    (trackPageview cfg env s).1.currentPath = s.currentPath ∧
    (trackPageview cfg env s).1.pageviewSent = true ∧
    (trackPageview cfg env s).1.engagementSent = false ∧
    (∀ ev ∈ (trackPageview cfg env s).2, ev.n = "pageview") ∧
    countName "pageview" (trackPageview cfg env s).2 ≤ 1 ∧
    countName "engagement" (trackPageview cfg env s).2 = 0 := by
  unfold trackPageview
  refine ⟨by simp, rfl, rfl, ?_, ?_, ?_⟩
  · intro ev hev
    exact (trackEvent_mem env cfg "pageview" _ ev hev).1
  · exact le_trans (countName_le_length _ _) (trackEvent_length_le _ _ _ _)
  · exact countName_eq_zero (fun ev hev => by
      simp [(trackEvent_mem env cfg "pageview" _ ev hev).1])

theorem trackPageview_events_u (cfg : Config) (env : Env) (s : State) :
    ∀ ev ∈ (trackPageview cfg env s).2, ev.u = getCurrentUrl env := by
  intro ev hev
  exact (trackEvent_mem env cfg "pageview" _ ev hev).2.1

/-! ### Track gate (C6) -/

/-- Claim C6: when `shouldTrack` is false, `trackEvent` hands nothing to
`fetch` and returns silently; the gate is false on loop-back hostnames,
automation flags (`webdriver`/Cypress), and the persisted opt-out value
`"true"`; and a throwing opt-out read leaves tracking allowed.  The model's
hostname pattern accepts `127.0.0.1` and `localhost`. -/
theorem gate_denies_silently (env : Env) (cfg : Config) (name : String)
    (extra : Extra) :
    (shouldTrack env = false → trackEvent env cfg name extra = []) ∧
    (isLoopbackHostname env.hostname = true → shouldTrack env = false) ∧
    (env.webdriver = true ∨ env.cypress = true → shouldTrack env = false) ∧
    (env.analyticsIgnore = some (some "true") → shouldTrack env = false) ∧
    (env.analyticsIgnore = none → isLoopbackHostname env.hostname = false →
      env.webdriver = false → env.cypress = false → shouldTrack env = true) ∧
    isLoopbackHostname "127.0.0.1" = true ∧
    isLoopbackHostname "localhost" = true := by
  refine ⟨?_, ?_, ?_, ?_, ?_, by decide, by decide⟩
  · intro h
    simp [trackEvent, sendRequest, h]
  · intro h
    simp [shouldTrack, h]
  · intro h
    rcases h with h | h <;> simp [shouldTrack, h]
  · intro h
    simp [shouldTrack, h]
  · intro h1 h2 h3 h4
    simp [shouldTrack, h1, h2, h3, h4]

/-- Witness for C6: tracking from `127.0.0.1` emits nothing, and a throwing
opt-out read on a normal hostname leaves the gate open. -/
theorem gate_denies_silently_witness :
    trackEvent { witEnv with hostname := "127.0.0.1" } witCfg "pageview" {} = [] ∧
    shouldTrack { witEnv with analyticsIgnore := none } = true :=
  ⟨(gate_denies_silently { witEnv with hostname := "127.0.0.1" } witCfg
        "pageview" {}).1
      ((gate_denies_silently { witEnv with hostname := "127.0.0.1" } witCfg
        "pageview" {}).2.1 (by decide)),
    (gate_denies_silently { witEnv with analyticsIgnore := none } witCfg
        "pageview" {}).2.2.2.2.1 (by decide) (by decide) (by decide) (by decide)⟩

/-! ### Payload-transform hook failure (C7) -/

/-- Counterexample to C7: with a configured hook that throws and a payload
with no custom-properties sub-object, the event is sent with `p` mutated to
the empty object (the source assigns `data.p = {}` before invoking the hook,
and the catch does not undo it), not with the pre-transform payload. -/
theorem hook_throw_mutates_missing_props :
    sendRequest { witEnv with hook := HookBehavior.throws } witCfg witData
        ≠ [witData] ∧
    sendRequest { witEnv with hook := HookBehavior.throws } witCfg witData
        = [{ witData with p := some [] }] := by
  constructor <;> decide

/-- Claim C7 (amended): a hook-resolution or hook-invocation failure is
swallowed and the event is still sent; when resolution fails the payload is
untouched, and when invocation throws any existing custom-properties
sub-object is untouched — but a payload that had none is sent with an empty
`p` object added before the failed invocation. -/
theorem hook_failure_swallowed (env : Env) (cfg : Config) (d : Event)
    (hsend : env.hasFetch = true) (htrack : shouldTrack env = true)
    (hname : cfg.beforeSend ≠ none) :
    (env.hook = HookBehavior.notFunction → sendRequest env cfg d = [d]) ∧
    (env.hook = HookBehavior.throws →
      sendRequest env cfg d = [{ d with p := some (d.p.getD []) }] ∧
      ∀ ps, d.p = some ps → sendRequest env cfg d = [d]) := by
  obtain ⟨nm, hnm⟩ : ∃ nm, cfg.beforeSend = some nm := by
    cases h : cfg.beforeSend with
    | none => exact absurd h hname
    | some nm => exact ⟨nm, rfl⟩
  constructor
  · intro hh
    simp [sendRequest, applyHook, hsend, htrack, hnm, hh]
  · intro hh
    constructor
    · simp [sendRequest, applyHook, hsend, htrack, hnm, hh]
    · intro ps hps
      cases d with
      | mk a1 a2 a3 a4 a5 ap a6 a7 a8 a9 =>
        dsimp only at hps
        subst hps
        simp [sendRequest, applyHook, hsend, htrack, hnm, hh]

/-- Witness for C7 (amended): resolution failure sends the payload untouched;
an invocation throw leaves an existing custom-properties object untouched. -/
theorem hook_failure_swallowed_witness :
    sendRequest witEnv witCfg witData = [witData] ∧
    sendRequest { witEnv with hook := HookBehavior.throws } witCfg
        { witData with p := some [("k", "v")] }
      = [{ witData with p := some [("k", "v")] }] :=
  ⟨(hook_failure_swallowed witEnv witCfg witData (by decide) (by decide)
      (by decide)).1 rfl,
    ((hook_failure_swallowed { witEnv with hook := HookBehavior.throws } witCfg
        { witData with p := some [("k", "v")] } (by decide) (by decide)
      (by decide)).2 rfl).2 [("k", "v")] rfl⟩

/-! ### Decomposition of `handleRouteChange` on a real route change -/

theorem handleRouteChange_eq (cfg : Config) (env : Env) (s : State)
    (h : ¬env.pathname = s.currentPath) :
    handleRouteChange cfg env s
      = ((trackPageview cfg env
            { (if s.currentPath ≠ "" then trackEngagement cfg env s else (s, [])).1 with
                currentPath := env.pathname, pageviewSent := false }).1,
         (if s.currentPath ≠ "" then trackEngagement cfg env s else (s, [])).2 ++
           (trackPageview cfg env
             { (if s.currentPath ≠ "" then trackEngagement cfg env s else (s, [])).1 with
                 currentPath := env.pathname, pageviewSent := false }).2) := by
  simp only [handleRouteChange, if_neg h]

theorem closeBranch_spec (cfg : Config) (env : Env) (s : State) (c : Prop)
    [Decidable c] :
    (if c then trackEngagement cfg env s else (s, [])).1.currentPath
        = s.currentPath ∧
    (∀ ev ∈ (if c then trackEngagement cfg env s else (s, [])).2,
        ev.n = "engagement") ∧
    countName "engagement" (if c then trackEngagement cfg env s else (s, [])).2 +
        engBudget (if c then trackEngagement cfg env s else (s, [])).1
      ≤ engBudget s ∧
    countName "pageview" (if c then trackEngagement cfg env s else (s, [])).2 = 0 := by
  split
  · exact ⟨(trackEngagement_spec cfg env s).1, (trackEngagement_spec cfg env s).2.2.1,
      (trackEngagement_spec cfg env s).2.2.2.1, (trackEngagement_spec cfg env s).2.2.2.2⟩
  · simp [countName]

theorem closeBranch_events_u (cfg : Config) (env : Env) (s : State) (c : Prop)
    [Decidable c] :
    ∀ ev ∈ (if c then trackEngagement cfg env s else (s, [])).2,
      ev.u = getCurrentUrl env := by
  split
  · exact trackEngagement_events_u cfg env s
  · simp

theorem handleRouteChange_change (cfg : Config) (env : Env) (s : State)
    (h : ¬env.pathname = s.currentPath) :
    (handleRouteChange cfg env s).1.currentPath = env.pathname ∧
    (handleRouteChange cfg env s).1.pageviewSent = true ∧
    (handleRouteChange cfg env s).1.engagementSent = false ∧
    countName "pageview" (handleRouteChange cfg env s).2 ≤ 1 ∧
    countName "engagement" (handleRouteChange cfg env s).2 ≤ engBudget s := by
  rw [handleRouteChange_eq cfg env s h]
  obtain ⟨hp1, hp2, hp3, _, hp5, hp6⟩ := trackPageview_spec cfg env
    { (if s.currentPath ≠ "" then trackEngagement cfg env s else (s, [])).1 with
        currentPath := env.pathname, pageviewSent := false }
  obtain ⟨_, _, hc3, hc4⟩ := closeBranch_spec cfg env s (s.currentPath ≠ "")
  refine ⟨hp1, hp2, hp3, ?_, ?_⟩
  · rw [countName_append, hc4, Nat.zero_add]
    exact hp5
  · rw [countName_append, hp6, Nat.add_zero]
    omega

theorem handleRouteChange_events_u (cfg : Config) (env : Env) (s : State) :
    ∀ ev ∈ (handleRouteChange cfg env s).2, ev.u = getCurrentUrl env := by
  by_cases h : env.pathname = s.currentPath
  · simp [handleRouteChange, h]
  · rw [handleRouteChange_eq cfg env s h]
    intro ev hev
    rw [List.mem_append] at hev
    rcases hev with hev | hev
    · exact closeBranch_events_u cfg env s _ ev hev
    · exact trackPageview_events_u cfg env _ ev hev

/-! ### Route changes: ordering and idempotence (C2) -/

/-- Claim C2: `handleRouteChange` is a no-op (same state, no events) when the
current pathname equals `currentPath`; on a real change with a non-empty
outgoing path, the emitted trace is the closing `engagement`-named events
strictly before the opening `pageview`-named events, and afterwards
`currentPath` equals the new pathname. -/
theorem routeChange_closes_before_opening (cfg : Config) (env : Env) (s : State) :
    (env.pathname = s.currentPath → handleRouteChange cfg env s = (s, [])) ∧
    (env.pathname ≠ s.currentPath → s.currentPath ≠ "" →
      (handleRouteChange cfg env s).1.currentPath = env.pathname ∧
      ∃ pre post, (handleRouteChange cfg env s).2 = pre ++ post ∧
        (∀ ev ∈ pre, ev.n = "engagement") ∧
        (∀ ev ∈ post, ev.n = "pageview")) := by
  constructor
  · intro h
    simp [handleRouteChange, h]
  · intro h _
    refine ⟨(handleRouteChange_change cfg env s h).1, ?_⟩
    rw [handleRouteChange_eq cfg env s h]
    exact ⟨_, _, rfl, (closeBranch_spec cfg env s (s.currentPath ≠ "")).2.1,
      (trackPageview_spec cfg env _).2.2.2.1⟩

/-- Witness for C2: navigating from the open page view on `/a` to `/b`. -/
theorem routeChange_closes_before_opening_witness :
    (handleRouteChange witCfg
        { witEnv with pathname := "/b", href := "https://example.com/b" }
        witState).1.currentPath = "/b" ∧
    ∃ pre post,
      (handleRouteChange witCfg
          { witEnv with pathname := "/b", href := "https://example.com/b" }
          witState).2 = pre ++ post ∧
      (∀ ev ∈ pre, ev.n = "engagement") ∧
      (∀ ev ∈ post, ev.n = "pageview") :=
  (routeChange_closes_before_opening witCfg
      { witEnv with pathname := "/b", href := "https://example.com/b" }
      witState).2 (by decide) (by decide)

/-! ### The engagement event and noise filter (C3) -/

theorem getScrollPercentage_le_100 (s : State) : getScrollPercentage s ≤ 100 := by
  unfold getScrollPercentage
  split
  · omega
  · exact min_le_right _ _

theorem trackEvent_open (env : Env) (cfg : Config) (name : String) (extra : Extra)
    (hfetch : env.hasFetch = true) (htrack : shouldTrack env = true) :
    ∃ ev, trackEvent env cfg name extra = [ev] ∧ ev.n = name ∧
      ev.u = getCurrentUrl env ∧ ev.sd = extra.sd ∧ ev.e = extra.e ∧
      ev.h = extra.h ∧ ev.tt = extra.tt := by
  obtain ⟨hn, hu, hsd, he, hh, htt⟩ := applyHook_fields env cfg
    (baseEvent env cfg name extra)
  refine ⟨applyHook env cfg (baseEvent env cfg name extra), ?_, hn, hu, hsd, he, hh, htt⟩
  simp [trackEvent, sendRequest, hfetch, htrack]

/-- Claim C3: with `pageviewSent` and not `engagementSent`, `trackEngagement`
emits nothing when the engaged time is under 2000 ms and no scroll happened;
otherwise (with the dispatcher gate open) it emits exactly one `engagement`
event carrying `sd` = scroll percentage (at most 100), `e` = the engaged-time
reading, `h` = 1, and `tt` = milliseconds since agent initialisation. -/
theorem trackEngagement_emission (cfg : Config) (env : Env) (s : State)
    (hpv : s.pageviewSent = true) (hes : s.engagementSent = false)
    (hfetch : env.hasFetch = true) (htrack : shouldTrack env = true) :
    (getEngagementTime env.now s < 2000 ∧ s.maxScrollDepth = 0 →
      (trackEngagement cfg env s).2 = []) ∧
    (¬(getEngagementTime env.now s < 2000 ∧ s.maxScrollDepth = 0) →
      ∃ ev, (trackEngagement cfg env s).2 = [ev] ∧
        ev.n = "engagement" ∧
        ev.sd = some (getScrollPercentage s) ∧
        getScrollPercentage s ≤ 100 ∧
        ev.e = some (getEngagementTime env.now s) ∧
        ev.h = some 1 ∧
        ev.tt = some (env.perfNow - s.pageLoadTime)) := by
  have hguard : (!s.pageviewSent || s.engagementSent) = false := by
    simp [hpv, hes]
  constructor
  · intro hnoise
    simp [trackEngagement, hguard, hnoise]
  · intro hnot
    have hexp : (trackEngagement cfg env s).2
        = trackEvent env cfg "engagement"
            { sd := some (getScrollPercentage (pauseEngagement env.now s))
              e := some (getEngagementTime env.now s)
              h := some 1
              tt := some (env.perfNow - (pauseEngagement env.now s).pageLoadTime) } := by
      simp [trackEngagement, hguard, hnot]
    obtain ⟨ev, heq, hn, _, hsd, he, hh, htt⟩ := trackEvent_open env cfg "engagement"
      { sd := some (getScrollPercentage (pauseEngagement env.now s))
        e := some (getEngagementTime env.now s)
        h := some 1
        tt := some (env.perfNow - (pauseEngagement env.now s).pageLoadTime) }
      hfetch htrack
    refine ⟨ev, by rw [hexp, heq], hn, ?_, getScrollPercentage_le_100 s, he, hh, ?_⟩
    · rw [hsd]
      simp [getScrollPercentage_pauseEngagement]
    · rw [htt]
      simp

/-- Witness for C3 at the open page view on `/a`: 4000 ms engaged, scrolled to
600 of 1200 px, so one engagement event with `sd = 50`, `e = 4000`, `h = 1`,
`tt = 6000` is emitted. -/
theorem trackEngagement_emission_witness :
    ∃ ev, (trackEngagement witCfg witEnv witState).2 = [ev] ∧
      ev.n = "engagement" ∧
      ev.sd = some (getScrollPercentage witState) ∧
      getScrollPercentage witState ≤ 100 ∧
      ev.e = some (getEngagementTime witEnv.now witState) ∧
      ev.h = some 1 ∧
      ev.tt = some (witEnv.perfNow - witState.pageLoadTime) :=
  (trackEngagement_emission witCfg witEnv witState (by decide) (by decide)
    (by decide) (by decide)).2 (by decide)

/-! ### The closing engagement reports the destination URL (C9) -/

/-- Claim C9: when a wrapped `pushState`/`replaceState` call closes the
outgoing page view, every emitted `engagement` event carries as `u` the URL
read at send time — the destination URL produced by the original history
method, which ran first — and therefore not the outgoing page's URL whenever
the two differ. -/
theorem spa_engagement_url_is_destination (navigate : Env → Env) (cfg : Config)
    (env : Env) (s : State) :
    ∀ ev ∈ (wrappedHistoryMethod navigate cfg env s).2, ev.n = "engagement" →
      ev.u = getCurrentUrl (navigate env) ∧
      (getCurrentUrl (navigate env) ≠ getCurrentUrl env →
        ev.u ≠ getCurrentUrl env) := by
  intro ev hev _
  have hu := handleRouteChange_events_u cfg (navigate env) s ev hev
  exact ⟨hu, fun hne => by rw [hu]; exact hne⟩

/-- Witness for C9: the engagement event closing `/a` carries the destination
URL `https://example.com/b`, not the outgoing URL. -/
theorem spa_engagement_url_is_destination_witness :
    ({ n := "engagement", u := "https://example.com/b", hu := some "u1", i := 7,
       r := none, p := none, sd := some 50, e := some 4000, h := some 1,
       tt := some 6000 : Event }).u = getCurrentUrl (witNav witEnv) ∧
    ({ n := "engagement", u := "https://example.com/b", hu := some "u1", i := 7,
       r := none, p := none, sd := some 50, e := some 4000, h := some 1,
       tt := some 6000 : Event }).u ≠ getCurrentUrl witEnv := by
  have h := spa_engagement_url_is_destination witNav witCfg witEnv witState
    { n := "engagement", u := "https://example.com/b", hu := some "u1", i := 7,
      r := none, p := none, sd := some 50, e := some 4000, h := some 1,
      tt := some 6000 } (by decide) (by decide)
  exact ⟨h.1, h.2 (by decide)⟩

/-! ### Query and fragment changes are not route changes (C10) -/

/-- Claim C10: `handleRouteChange` compares only `location.pathname` with
`currentPath`; whenever they agree — in particular when only the query string
or fragment of the URL changed — it is a complete no-op: the state (scroll
and engagement trackers included) is unchanged and no event is emitted. -/
theorem routeChange_ignores_query_and_fragment (cfg : Config) (env : Env)
    (s : State) (h : env.pathname = s.currentPath) :
    handleRouteChange cfg env s = (s, []) := by
  simp [handleRouteChange, h]

/-- Witness for C10: a URL differing only in query and fragment. -/
theorem routeChange_ignores_query_and_fragment_witness :
    handleRouteChange witCfg
      { witEnv with href := "https://example.com/a?q=2#frag" } witState
      = (witState, []) :=
  routeChange_ignores_query_and_fragment witCfg
    { witEnv with href := "https://example.com/a?q=2#frag" } witState (by decide)

/-! ### At most one pageview and one engagement per path (C1) -/

theorem engBudget_eq_of {s' s : State} (h : s'.engagementSent = s.engagementSent) :
    engBudget s' = engBudget s := by
  unfold engBudget
  rw [h]

theorem step_const (cfg : Config) (sig : Signal) (env : Env) (s : State)
    (h : env.pathname = s.currentPath) :
    (step cfg sig env s).1.currentPath = s.currentPath ∧
    countName "pageview" (step cfg sig env s).2 = 0 ∧
    countName "engagement" (step cfg sig env s).2 +
        engBudget (step cfg sig env s).1 ≤ engBudget s := by
  cases sig with
  | routeChange =>
    simp [step, handleRouteChange, h, countName]
  | visibilitychange =>
    refine ⟨by simp [step], by simp [step, countName], ?_⟩
    rw [show (step cfg Signal.visibilitychange env s).1
          = handleVisibilityChange env s from rfl,
      engBudget_eq_of (handleVisibilityChange_engagementSent env s)]
    simp [step, countName]
  | focus =>
    refine ⟨by simp [step], by simp [step, countName], ?_⟩
    rw [show (step cfg Signal.focus env s).1 = startEngagement env.now s from rfl,
      engBudget_eq_of (startEngagement_engagementSent env.now s)]
    simp [step, countName]
  | blur =>
    refine ⟨by simp [step], by simp [step, countName], ?_⟩
    rw [show (step cfg Signal.blur env s).1 = pauseEngagement env.now s from rfl,
      engBudget_eq_of (pauseEngagement_engagementSent env.now s)]
    simp [step, countName]
  | unload =>
    exact ⟨(trackEngagement_spec cfg env s).1, (trackEngagement_spec cfg env s).2.2.2.2,
      (trackEngagement_spec cfg env s).2.2.2.1⟩
  | scroll =>
    refine ⟨by simp [step], by simp [step, countName], ?_⟩
    rw [show (step cfg Signal.scroll env s).1 = onScrollSample env s from rfl,
      engBudget_eq_of (onScrollSample_engagementSent env s)]
    simp [step, countName]

theorem stepRun_const (cfg : Config) (l : List (Signal × Env)) (s : State)
    (h : ∀ pr ∈ l, pr.2.pathname = s.currentPath) :
    (stepRun cfg s l).1.currentPath = s.currentPath ∧
    countName "pageview" (stepRun cfg s l).2 = 0 ∧
    countName "engagement" (stepRun cfg s l).2 +
        engBudget (stepRun cfg s l).1 ≤ engBudget s := by
  induction l generalizing s with
  | nil => simp [stepRun, countName]
  | cons pr rest ih =>
    obtain ⟨sig, env⟩ := pr
    have h1 := step_const cfg sig env s (h (sig, env) (List.mem_cons_self _ _))
    have h2 := ih (step cfg sig env s).1 (by
      intro q hq
      rw [h1.1]
      exact h q (List.mem_cons_of_mem _ hq))
    have e1 : (stepRun cfg s ((sig, env) :: rest)).1
        = (stepRun cfg (step cfg sig env s).1 rest).1 := rfl
    have e2 : (stepRun cfg s ((sig, env) :: rest)).2
        = (step cfg sig env s).2 ++ (stepRun cfg (step cfg sig env s).1 rest).2 := rfl
    refine ⟨?_, ?_, ?_⟩
    · rw [e1, h2.1, h1.1]
    · rw [e2, countName_append, h1.2.1, h2.2.1]
    · rw [e1, e2, countName_append]
      have hb1 := h1.2.2
      have hb2 := h2.2.2
      omega

/-- Claim C1: over any sequence of lifecycle signals, at most one `pageview`
and at most one `engagement` event are emitted per value of `currentPath`
between the route change that sets it and the route change that next changes
it: the epoch's pageviews are those of the opening step plus the
path-constant middle (≤ 1), and its engagements are those of the middle plus
the closing step (≤ 1) — in particular two unload signals in the middle emit
the engagement at most once. -/
theorem at_most_one_pageview_and_engagement_per_path
    (cfg : Config) (s : State) (envOpen : Env) (mids : List (Signal × Env))
    (envClose : Env)
    (hOpen : ¬envOpen.pathname = s.currentPath)
    (hMid : ∀ pr ∈ mids, pr.2.pathname = envOpen.pathname)
    (hClose : ¬envClose.pathname = envOpen.pathname) :
    countName "pageview"
        ((handleRouteChange cfg envOpen s).2 ++
          (stepRun cfg (handleRouteChange cfg envOpen s).1 mids).2) ≤ 1 ∧
    countName "engagement"
        ((stepRun cfg (handleRouteChange cfg envOpen s).1 mids).2 ++
          (handleRouteChange cfg envClose
            (stepRun cfg (handleRouteChange cfg envOpen s).1 mids).1).2) ≤ 1 := by
  obtain ⟨ho1, ho2, ho3, ho4, ho5⟩ := handleRouteChange_change cfg envOpen s hOpen
  have hrun := stepRun_const cfg mids (handleRouteChange cfg envOpen s).1 (by
    intro q hq
    rw [ho1]
    exact hMid q hq)
  have hb1 : engBudget (handleRouteChange cfg envOpen s).1 = 1 := by
    unfold engBudget
    rw [ho3]
    rfl
  have hclose := handleRouteChange_change cfg envClose
    (stepRun cfg (handleRouteChange cfg envOpen s).1 mids).1 (by
      rw [hrun.1, ho1]
      exact hClose)
  constructor
  · rw [countName_append, hrun.2.1]
    omega
  · rw [countName_append]
    have h5 := hclose.2.2.2.2
    have h6 := hrun.2.2
    omega

/-- Witness for C1: opening `/a` from the initial state, two unload signals
while on `/a`, then navigating to `/b`. -/
theorem at_most_one_pageview_and_engagement_per_path_witness :
    countName "pageview"
        ((handleRouteChange witCfg witEnv (initialState 0)).2 ++
          (stepRun witCfg (handleRouteChange witCfg witEnv (initialState 0)).1
            [(Signal.unload, witEnv), (Signal.unload, witEnv)]).2) ≤ 1 ∧
    countName "engagement"
        ((stepRun witCfg (handleRouteChange witCfg witEnv (initialState 0)).1
            [(Signal.unload, witEnv), (Signal.unload, witEnv)]).2 ++
          (handleRouteChange witCfg
            { witEnv with pathname := "/b", href := "https://example.com/b" }
            (stepRun witCfg (handleRouteChange witCfg witEnv (initialState 0)).1
              [(Signal.unload, witEnv), (Signal.unload, witEnv)]).1).2) ≤ 1 :=
  at_most_one_pageview_and_engagement_per_path witCfg (initialState 0) witEnv
    [(Signal.unload, witEnv), (Signal.unload, witEnv)]
    { witEnv with pathname := "/b", href := "https://example.com/b" }
    (by decide) (by decide) (by decide)

/-! ### The bounded height-repolling timer (C8) -/

theorem repollTick_cancelled (env : Env) (t : RepollTimer) (s : State)
    (h : t.cancelled = true) : repollTick env t s = (t, s) := by
  simp [repollTick, h]

theorem repollRun_cancelled_count (envs : List Env) (t : RepollTimer) (s : State)
    (h : t.cancelled = true) : (repollRun envs t s).2.2 = 0 := by
  induction envs generalizing t s with
  | nil => simp [repollRun]
  | cons env rest ih =>
    simp only [repollRun, repollTick, h, if_true]
    rw [ih t s h]

theorem repollRun_count_le (envs : List Env) (t : RepollTimer) (s : State)
    (hinv : t.cancelled = false → 1 ≤ t.attempts) :
    (repollRun envs t s).2.2 ≤ t.attempts.toNat := by
  induction envs generalizing t s with
  | nil => simp [repollRun]
  | cons env rest ih =>
    by_cases hc : t.cancelled = true
    · rw [repollRun_cancelled_count (env :: rest) t s hc]
      omega
    · rw [Bool.not_eq_true] at hc
      have ha := hinv hc
      simp only [repollRun, repollTick, hc, Bool.false_eq_true, if_false]
      by_cases hz : t.attempts - 1 ≤ 0
      · rw [repollRun_cancelled_count rest
          { t with attempts := t.attempts - 1
                   cancelled := decide (t.attempts - 1 ≤ 0) }
          { s with documentHeight := getDocumentHeight env }
          (by
            dsimp only
            exact decide_eq_true hz)]
        omega
      · have hrest := ih
          { t with attempts := t.attempts - 1
                   cancelled := decide (t.attempts - 1 ≤ 0) }
          { s with documentHeight := getDocumentHeight env }
          (by
            intro hcf
            dsimp only
            omega)
        dsimp only at hrest
        omega

theorem repollRun_cancels (envs : List Env) (t : RepollTimer) (s : State)
    (hinv : t.cancelled = false → 1 ≤ t.attempts)
    (h : t.cancelled = true ∨ t.attempts ≤ (envs.length : Int)) :
    ((repollRun envs t s).1).cancelled = true := by
  induction envs generalizing t s with
  | nil =>
    rcases h with h | h
    · simpa [repollRun] using h
    · by_cases hc : t.cancelled = true
      · simpa [repollRun] using hc
      · rw [Bool.not_eq_true] at hc
        have := hinv hc
        simp at h
        omega
  | cons env rest ih =>
    by_cases hc : t.cancelled = true
    · have he : (repollRun (env :: rest) t s).1 = (repollRun rest t s).1 := by
        simp [repollRun, repollTick, hc]
      rw [he]
      exact ih t s hinv (Or.inl hc)
    · rw [Bool.not_eq_true] at hc
      have ha := hinv hc
      have he : (repollRun (env :: rest) t s).1
          = (repollRun rest
              { t with attempts := t.attempts - 1
                       cancelled := decide (t.attempts - 1 ≤ 0) }
              { s with documentHeight := getDocumentHeight env }).1 := by
        simp [repollRun, repollTick, hc]
      rw [he]
      apply ih
      · intro hcf
        dsimp only at hcf ⊢
        rw [decide_eq_false_iff_not] at hcf
        omega
      · by_cases hz : t.attempts - 1 ≤ 0
        · left
          dsimp only
          exact decide_eq_true hz
        · right
          rcases h with h | h
          · rw [hc] at h
            exact absurd h (by simp)
          · dsimp only
            simp only [List.length_cons] at h
            push_cast at h ⊢
            omega

/-- Claim C8: from its start state the repolling timer re-polls the document
height at most 10 times; after at least 10 ticks it has cancelled itself;
once cancelled, every further tick is a complete no-op (no recurring work
remains); and its budget and period are the fixed constants 10 and 300 ms. -/
theorem repoll_bounded_and_self_cancelling (envs : List Env) (s : State) :
    (repollRun envs repollStart s).2.2 ≤ 10 ∧
    (10 ≤ envs.length → ((repollRun envs repollStart s).1).cancelled = true) ∧
    (∀ env t s2, t.cancelled = true → repollTick env t s2 = (t, s2)) ∧
    repollStart.attempts = 10 ∧ repollStart.periodMs = 300 := by
  refine ⟨?_, ?_, ?_, rfl, rfl⟩
  · have h := repollRun_count_le envs repollStart s (fun _ => by norm_num [repollStart])
    simpa [repollStart] using h
  · intro hlen
    apply repollRun_cancels envs repollStart s (fun _ => by norm_num [repollStart])
    right
    show (10 : Int) ≤ (envs.length : Int)
    exact_mod_cast hlen
  · intro env t s2 hcan
    exact repollTick_cancelled env t s2 hcan

/-- Witness for C8: a run of 12 ticks re-polls at most 10 times and ends
cancelled, and a tick on a cancelled timer is a no-op. -/
theorem repoll_bounded_and_self_cancelling_witness :
    (repollRun (List.replicate 12 witEnv) repollStart (initialState 0)).2.2 ≤ 10 ∧
    ((repollRun (List.replicate 12 witEnv) repollStart (initialState 0)).1).cancelled
        = true ∧
    repollTick witEnv { attempts := 0, cancelled := true, periodMs := 300 }
        (initialState 0)
      = ({ attempts := 0, cancelled := true, periodMs := 300 }, initialState 0) :=
  ⟨(repoll_bounded_and_self_cancelling (List.replicate 12 witEnv) (initialState 0)).1,
   (repoll_bounded_and_self_cancelling (List.replicate 12 witEnv) (initialState 0)).2.1
     (by decide),
   (repoll_bounded_and_self_cancelling (List.replicate 12 witEnv) (initialState 0)).2.2.1
     witEnv { attempts := 0, cancelled := true, periodMs := 300 } (initialState 0) rfl⟩

end Counter
